import Mathlib

/-!
Verification development for the v2-auto repository
(source files: src/main.py and src/fingerprints.py).

This file gives a shallow embedding, in Lean, of the parts of the program the
claims are about:

* the fingerprint-synthesis functions of src/fingerprints.py
  (canvas/WebGL/font/TLS/header derivations and the stealth-script bundle),
  including a full executable MD5 so the content digests are the real ones;
* the resilient click loop hard_click of src/main.py, modelled over an
  environment (an oracle) that decides the outcome and the duration of every
  primitive browser action;
* the session runner run_once of src/main.py, modelled over an environment
  that decides the outcome of every fallible browser call, while tracking how
  often each teardown call is invoked;
* the supervisor worker loop runner_task of src/main.py.

Machine integers are modelled as Nat with explicit reduction mod 2 ^ 32 where
the source computation (MD5) overflows.  Time is modelled in integer
milliseconds.
-/

/-- Python's substring test on char lists: true iff pat occurs contiguously in
the second list (true for the empty pattern, as in Python). -/
def char_list_substr (pat : List Char) : List Char → Bool
  | [] => pat.isEmpty
  | c :: rest => pat.isPrefixOf (c :: rest) || char_list_substr pat rest

/-- Python's substring test on strings: strContains s pat models "pat in s". -/
def strContains (s pat : String) : Bool :=
  char_list_substr pat.toList s.toList

/-! ## MD5 (hashlib.md5(...).hexdigest() of the Python standard library)

The repository's digests are hexdigests of MD5 over UTF-8 bytes.  32-bit
machine words are Nat reduced mod 2 ^ 32. -/

/-- The word modulus of MD5, 2 ^ 32. -/
def md5Mod : Nat := 4294967296

/-- Addition of 32-bit words. -/
def add32 (a b : Nat) : Nat := (a + b) % md5Mod

/-- Bitwise complement of a 32-bit word. -/
def not32 (a : Nat) : Nat := a ^^^ 4294967295

/-- Left rotation of a 32-bit word by s bits. -/
def rotl32 (x s : Nat) : Nat := ((x <<< s) ||| (x >>> (32 - s))) % md5Mod

/-- Round function F of MD5 (rounds 0-15). -/
def md5F (b c d : Nat) : Nat := (b &&& c) ||| (not32 b &&& d)

/-- Round function G of MD5 (rounds 16-31). -/
def md5G (b c d : Nat) : Nat := (d &&& b) ||| (not32 d &&& c)

/-- Round function H of MD5 (rounds 32-47). -/
def md5H (b c d : Nat) : Nat := b ^^^ c ^^^ d

/-- Round function I of MD5 (rounds 48-63). -/
def md5I (b c d : Nat) : Nat := c ^^^ (b ||| not32 d)

/-- The 64 sine-derived additive constants of MD5 (RFC 1321). -/
def md5K : List Nat :=
  [0xd76aa478, 0xe8c7b756, 0x242070db, 0xc1bdceee,
   0xf57c0faf, 0x4787c62a, 0xa8304613, 0xfd469501,
   0x698098d8, 0x8b44f7af, 0xffff5bb1, 0x895cd7be,
   0x6b901122, 0xfd987193, 0xa679438e, 0x49b40821,
   0xf61e2562, 0xc040b340, 0x265e5a51, 0xe9b6c7aa,
   0xd62f105d, 0x02441453, 0xd8a1e681, 0xe7d3fbc8,
   0x21e1cde6, 0xc33707d6, 0xf4d50d87, 0x455a14ed,
   0xa9e3e905, 0xfcefa3f8, 0x676f02d9, 0x8d2a4c8a,
   0xfffa3942, 0x8771f681, 0x6d9d6122, 0xfde5380c,
   0xa4beea44, 0x4bdecfa9, 0xf6bb4b60, 0xbebfbc70,
   0x289b7ec6, 0xeaa127fa, 0xd4ef3085, 0x04881d05,
   0xd9d4d039, 0xe6db99e5, 0x1fa27cf8, 0xc4ac5665,
   0xf4292244, 0x432aff97, 0xab9423a7, 0xfc93a039,
   0x655b59c3, 0x8f0ccc92, 0xffeff47d, 0x85845dd1,
   0x6fa87e4f, 0xfe2ce6e0, 0xa3014314, 0x4e0811a1,
   0xf7537e82, 0xbd3af235, 0x2ad7d2bb, 0xeb86d391]

/-- The 64 per-round left-rotation amounts of MD5. -/
def md5S : List Nat :=
  [7, 12, 17, 22, 7, 12, 17, 22, 7, 12, 17, 22, 7, 12, 17, 22,
   5, 9, 14, 20, 5, 9, 14, 20, 5, 9, 14, 20, 5, 9, 14, 20,
   4, 11, 16, 23, 4, 11, 16, 23, 4, 11, 16, 23, 4, 11, 16, 23,
   6, 10, 15, 21, 6, 10, 15, 21, 6, 10, 15, 21, 6, 10, 15, 21]

/-- One of the 64 MD5 rounds: M is the message-word accessor of the current
chunk, st the running (A, B, C, D) state, i the round index. -/
def md5Round (M : Nat → Nat) (st : Nat × Nat × Nat × Nat) (i : Nat) :
    Nat × Nat × Nat × Nat :=
  let a := st.1
  let b := st.2.1
  let c := st.2.2.1
  let d := st.2.2.2
  let f :=
    if i < 16 then md5F b c d
    else if i < 32 then md5G b c d
    else if i < 48 then md5H b c d
    else md5I b c d
  let g :=
    if i < 16 then i
    else if i < 32 then (5 * i + 1) % 16
    else if i < 48 then (3 * i + 5) % 16
    else (7 * i) % 16
  let tmp := (f + a + md5K.getD i 0 + M g) % md5Mod
  (d, add32 b (rotl32 tmp (md5S.getD i 0)), b, c)

/-- Process one 64-byte chunk of the padded message. -/
def md5Chunk (st : Nat × Nat × Nat × Nat) (chunk : List Nat) :
    Nat × Nat × Nat × Nat :=
  let M : Nat → Nat := fun j =>
    chunk.getD (4 * j) 0 + 256 * chunk.getD (4 * j + 1) 0 +
      65536 * chunk.getD (4 * j + 2) 0 + 16777216 * chunk.getD (4 * j + 3) 0
  let r := (List.range 64).foldl (md5Round M) st
  (add32 st.1 r.1, add32 st.2.1 r.2.1, add32 st.2.2.1 r.2.2.1,
   add32 st.2.2.2 r.2.2.2)

/-- k little-endian bytes of n. -/
def lebytes : Nat → Nat → List Nat
  | 0, _ => []
  | k + 1, n => n % 256 :: lebytes k (n / 256)

/-- MD5 padding: a 0x80 byte, zeros to 56 mod 64, then the 64-bit
little-endian bit length. -/
def md5Pad (msg : List Nat) : List Nat :=
  let len := msg.length
  let padZeros := (55 + 64 - len % 64) % 64
  msg ++ [128] ++ List.replicate padZeros 0 ++
    lebytes 8 ((8 * len) % 18446744073709551616)

/-- Fold md5Chunk over the 64-byte blocks of the (padded) message.  The fuel
argument starts at the message length, which bounds the number of blocks. -/
def md5Blocks : Nat → List Nat → Nat × Nat × Nat × Nat → Nat × Nat × Nat × Nat
  | 0, _, st => st
  | fuel + 1, bytes, st =>
    match bytes with
    | [] => st
    | _ :: _ => md5Blocks fuel (bytes.drop 64) (md5Chunk st (bytes.take 64))

/-- The UTF-8 bytes of a string, as Nats (Python str.encode()). -/
def strBytes (s : String) : List Nat :=
  s.toUTF8.toList.map UInt8.toNat

/-- Two lowercase hex digits of a byte (Nat.digitChar yields 0-9 then a-f on
arguments below 16, matching a hexdigest). -/
def byteHex (n : Nat) : List Char :=
  [Nat.digitChar (n / 16 % 16), Nat.digitChar (n % 16)]

/-- Eight hex digits of a 32-bit word, little-endian byte order as in an MD5
hexdigest. -/
def word32HexLE (w : Nat) : List Char :=
  byteHex (w % 256) ++ byteHex (w / 256 % 256) ++ byteHex (w / 65536 % 256) ++
    byteHex (w / 16777216 % 256)

/-- hashlib.md5(s.encode()).hexdigest(). -/
def md5hex (s : String) : String :=
  let bytes := md5Pad (strBytes s)
  let r := md5Blocks bytes.length bytes
    (0x67452301, 0xefcdab89, 0x98badcfe, 0x10325476)
  String.mk (word32HexLE r.1 ++ word32HexLE r.2.1 ++ word32HexLE r.2.2.1 ++
    word32HexLE r.2.2.2)

/-! ## Fingerprint synthesis (src/fingerprints.py)

The derivation functions take the exact dictionary fields the Python
functions read (random_profile always supplies them, so the .get defaults of
the source only matter for absent keys, which are noted where they arise). -/

/-- WebGL rendering-fingerprint triplet plus shading-language version, the
dict returned by generate_webgl_fingerprint. -/
structure WebGLFp where
  vendor : String
  renderer : String
  version : String
  shading_language_version : String
deriving DecidableEq, Repr

/-- The fixed three-element desktop/Windows GPU list of
generate_webgl_fingerprint. -/
def gpu_options : List (String × String) :=
  [("NVIDIA Corporation", "NVIDIA GeForce RTX 3060"),
   ("Intel", "Intel(R) UHD Graphics 630"),
   ("AMD", "AMD Radeon RX 580")]

/-- Build the full WebGL dict from a (vendor, renderer) pair of the Windows
GPU list. -/
def windows_gpu (g : String × String) : WebGLFp :=
  ⟨g.1, g.2, "WebGL 1.0", "WebGL GLSL ES 1.0"⟩

/-- The iOS mobile triplet of generate_webgl_fingerprint. -/
def apple_fp : WebGLFp :=
  ⟨"Apple Inc.", "Apple GPU", "WebGL 1.0", "WebGL GLSL ES 1.0"⟩

/-- The Android mobile triplet of generate_webgl_fingerprint. -/
def android_fp : WebGLFp :=
  ⟨"Qualcomm", "Adreno (TM) 640", "WebGL 1.0", "WebGL GLSL ES 1.0"⟩

/-- The desktop Mac triplet of generate_webgl_fingerprint. -/
def mac_fp : WebGLFp :=
  ⟨"Intel Inc.", "Intel(R) Iris(TM) Plus Graphics", "WebGL 1.0",
   "WebGL GLSL ES 1.0"⟩

/-- The desktop Linux triplet of generate_webgl_fingerprint. -/
def linux_fp : WebGLFp :=
  ⟨"Mesa", "Mesa DRI Intel(R) UHD Graphics", "WebGL 1.0", "WebGL GLSL ES 1.0"⟩

/-- generate_webgl_fingerprint of src/fingerprints.py, on the fields it reads
(platform, is_mobile, device_memory).  The list index
device_memory % len(gpu_options) is always in bounds (mod 3 < 3), so the
getD default is unreachable. -/
def generate_webgl_fingerprint (platform : String) (is_mobile : Bool)
    (device_memory : Nat) : WebGLFp :=
  if is_mobile then
    if strContains platform "iPhone" then apple_fp
    else android_fp
  else
    if strContains platform "Mac" then mac_fp
    else if strContains platform "Linux" then linux_fp
    else windows_gpu (gpu_options.getD (device_memory % gpu_options.length)
      ("", ""))

/-- generate_canvas_fingerprint of src/fingerprints.py: the MD5 hexdigest of
"platform_memory_concurrency". -/
def generate_canvas_fingerprint (platform : String)
    (device_memory hardware_concurrency : Nat) : String :=
  md5hex (platform ++ "_" ++ toString device_memory ++ "_" ++
    toString hardware_concurrency)

/-- The base font list of generate_fonts_list. -/
def base_fonts : List String :=
  ["Arial", "Helvetica", "Times", "Times New Roman", "Courier", "Courier New",
   "Verdana", "Georgia", "Palatino", "Garamond", "Bookman", "Comic Sans MS",
   "Trebuchet MS", "Arial Black", "Impact"]

/-- The Windows extension font list of generate_fonts_list. -/
def windows_fonts : List String :=
  ["Calibri", "Cambria", "Consolas", "Constantia", "Corbel", "Candara",
   "Segoe UI", "Tahoma", "MS Sans Serif", "MS Serif"]

/-- The Mac extension font list of generate_fonts_list. -/
def mac_fonts : List String :=
  ["Monaco", "Menlo", "SF Pro Display", "SF Pro Text", "Helvetica Neue",
   "Lucida Grande", "Apple Symbols", "Marker Felt"]

/-- The Linux extension font list of generate_fonts_list (also the default
branch for unrecognized platforms). -/
def linux_fonts : List String :=
  ["Ubuntu", "DejaVu Sans", "Liberation Sans", "Droid Sans", "Noto Sans",
   "FreeSans", "FreeMono"]

/-- generate_fonts_list of src/fingerprints.py. -/
def generate_fonts_list (platform : String) : List String :=
  if strContains platform "Win32" then base_fonts ++ windows_fonts
  else if strContains platform "Mac" then base_fonts ++ mac_fonts
  else base_fonts ++ linux_fonts

/-- Transport-layer fingerprint bundle, the dict returned by
generate_tls_fingerprint. -/
structure TlsFp where
  version : String
  cipher_suites : List String
  extensions : List String
  curves : List String
  signature_algorithms : List String
  alpn : List String
deriving DecidableEq, Repr

/-- The curve list shared by every branch of generate_tls_fingerprint. -/
def tls_curves : List String := ["X25519", "secp256r1", "secp384r1"]

/-- The signature-algorithm list shared by every branch of
generate_tls_fingerprint. -/
def tls_sig_algs : List String :=
  ["ecdsa_secp256r1_sha256", "rsa_pss_rsae_sha256", "rsa_pkcs1_sha256",
   "ecdsa_secp384r1_sha384", "rsa_pss_rsae_sha384", "rsa_pkcs1_sha384"]

/-- The ALPN list shared by every branch of generate_tls_fingerprint. -/
def tls_alpn : List String := ["h2", "http/1.1"]

/-- The Chrome-on-Windows branch of generate_tls_fingerprint. -/
def chrome_win_tls : TlsFp :=
  { version := "TLSv1.3"
    cipher_suites :=
      ["TLS_AES_128_GCM_SHA256", "TLS_AES_256_GCM_SHA384",
       "TLS_CHACHA20_POLY1305_SHA256",
       "TLS_ECDHE_ECDSA_WITH_AES_128_GCM_SHA256",
       "TLS_ECDHE_RSA_WITH_AES_128_GCM_SHA256"]
    extensions :=
      ["server_name", "extended_master_secret", "renegotiation_info",
       "supported_groups", "ec_point_formats", "session_ticket",
       "application_layer_protocol_negotiation", "status_request",
       "signature_algorithms", "signed_certificate_timestamp",
       "key_share", "psk_key_exchange_modes", "supported_versions",
       "compress_certificate", "application_settings"]
    curves := tls_curves
    signature_algorithms := tls_sig_algs
    alpn := tls_alpn }

/-- The Chrome-on-Mac branch of generate_tls_fingerprint. -/
def chrome_mac_tls : TlsFp :=
  { version := "TLSv1.3"
    cipher_suites :=
      ["TLS_AES_128_GCM_SHA256", "TLS_AES_256_GCM_SHA384",
       "TLS_CHACHA20_POLY1305_SHA256",
       "TLS_ECDHE_ECDSA_WITH_AES_256_GCM_SHA384",
       "TLS_ECDHE_RSA_WITH_AES_256_GCM_SHA384"]
    extensions :=
      ["server_name", "extended_master_secret", "renegotiation_info",
       "supported_groups", "ec_point_formats", "session_ticket",
       "application_layer_protocol_negotiation", "status_request",
       "signature_algorithms", "signed_certificate_timestamp",
       "key_share", "psk_key_exchange_modes", "supported_versions"]
    curves := tls_curves
    signature_algorithms := tls_sig_algs
    alpn := tls_alpn }

/-- The Chrome-on-Linux branch of generate_tls_fingerprint (also the Chrome
branch for unrecognized platforms). -/
def chrome_linux_tls : TlsFp :=
  { version := "TLSv1.3"
    cipher_suites :=
      ["TLS_AES_128_GCM_SHA256", "TLS_AES_256_GCM_SHA384",
       "TLS_CHACHA20_POLY1305_SHA256",
       "TLS_ECDHE_ECDSA_WITH_AES_128_GCM_SHA256",
       "TLS_ECDHE_RSA_WITH_AES_128_GCM_SHA256"]
    extensions :=
      ["server_name", "extended_master_secret", "renegotiation_info",
       "supported_groups", "ec_point_formats", "session_ticket",
       "application_layer_protocol_negotiation", "status_request",
       "signature_algorithms", "key_share", "psk_key_exchange_modes",
       "supported_versions"]
    curves := tls_curves
    signature_algorithms := tls_sig_algs
    alpn := tls_alpn }

/-- The Safari branch of generate_tls_fingerprint. -/
def safari_tls : TlsFp :=
  { version := "TLSv1.3"
    cipher_suites :=
      ["TLS_AES_128_GCM_SHA256", "TLS_AES_256_GCM_SHA384",
       "TLS_CHACHA20_POLY1305_SHA256",
       "TLS_ECDHE_ECDSA_WITH_AES_256_GCM_SHA384",
       "TLS_ECDHE_ECDSA_WITH_AES_128_GCM_SHA256"]
    extensions :=
      ["server_name", "extended_master_secret", "renegotiation_info",
       "supported_groups", "ec_point_formats", "session_ticket",
       "application_layer_protocol_negotiation", "signature_algorithms",
       "key_share", "psk_key_exchange_modes", "supported_versions"]
    curves := tls_curves
    signature_algorithms := tls_sig_algs
    alpn := tls_alpn }

/-- The Firefox (default) branch of generate_tls_fingerprint. -/
def firefox_tls : TlsFp :=
  { version := "TLSv1.3"
    cipher_suites :=
      ["TLS_AES_128_GCM_SHA256", "TLS_CHACHA20_POLY1305_SHA256",
       "TLS_AES_256_GCM_SHA384",
       "TLS_ECDHE_ECDSA_WITH_AES_128_GCM_SHA256",
       "TLS_ECDHE_RSA_WITH_AES_128_GCM_SHA256"]
    extensions :=
      ["server_name", "extended_master_secret", "renegotiation_info",
       "supported_groups", "ec_point_formats", "session_ticket",
       "application_layer_protocol_negotiation", "signature_algorithms",
       "key_share", "psk_key_exchange_modes", "supported_versions"]
    curves := tls_curves
    signature_algorithms := tls_sig_algs
    alpn := tls_alpn }

/-- generate_tls_fingerprint of src/fingerprints.py, on the two fields it
reads (platform, user_agent). -/
def generate_tls_fingerprint (platform user_agent : String) : TlsFp :=
  if strContains user_agent "Chrome" then
    if strContains platform "Win32" then chrome_win_tls
    else if strContains platform "Mac" then chrome_mac_tls
    else chrome_linux_tls
  else if strContains user_agent "Safari" then safari_tls
  else firefox_tls

/-- generate_realistic_headers of src/fingerprints.py, as an association
list in insertion order. -/
def generate_realistic_headers (locale user_agent : String) :
    List (String × String) :=
  let base :=
    [("User-Agent", user_agent),
     ("Accept", "text/html,application/xhtml+xml,application/xml;q=0.9,image/avif,image/webp,image/apng,*/*;q=0.8,application/signed-exchange;v=b3;q=0.7"),
     ("Accept-Language",
       locale ++ "," ++ (locale.splitOn "-").headD "" ++ ";q=0.9,en;q=0.8"),
     ("Accept-Encoding", "gzip, deflate, br"),
     ("Cache-Control", "max-age=0"),
     ("Upgrade-Insecure-Requests", "1"),
     ("Sec-Fetch-Dest", "document"),
     ("Sec-Fetch-Mode", "navigate"),
     ("Sec-Fetch-Site", "none"),
     ("Sec-Fetch-User", "?1")]
  if strContains user_agent "Chrome" && !strContains user_agent "Edg" then
    base ++
      [("sec-ch-ua", "\"Chromium\";v=\"127\", \"Not)A;Brand\";v=\"99\""),
       ("sec-ch-ua-mobile",
         if strContains user_agent "Mobile" then "?1" else "?0"),
       ("sec-ch-ua-platform",
         if strContains user_agent "Windows" then "\"Windows\""
         else if strContains user_agent "Mac" then "\"macOS\""
         else "\"Linux\"")]
  else base

/-- The record of computed values that create_stealth_scripts interpolates
into its (constant) JavaScript template.  The template text itself carries no
computation, so the script artifact is modelled by this typed record of its
interpolants, as the spec's design notes prescribe for the initialization
script. -/
structure StealthBundle where
  canvas_fp : String
  webgl_fp : WebGLFp
  audio_fp : String
  fonts : List String
  hardware_concurrency : Nat
  device_memory : Nat
deriving DecidableEq, Repr

/-- create_stealth_scripts of src/fingerprints.py.  Note: the dict passed to
it by random_profile has no is_mobile key, so its inner
generate_webgl_fingerprint call uses the .get default False. -/
def create_stealth_scripts (platform : String)
    (device_memory hardware_concurrency _max_touch_points : Nat) :
    StealthBundle :=
  { canvas_fp :=
      generate_canvas_fingerprint platform device_memory hardware_concurrency
    webgl_fp := generate_webgl_fingerprint platform false device_memory
    audio_fp := md5hex (platform ++ "_audio")
    fonts := generate_fonts_list platform
    hardware_concurrency := hardware_concurrency
    device_memory := device_memory }

/-- DeviceProfile of src/fingerprints.py (one catalog archetype). -/
structure DeviceProfile where
  user_agent : String
  viewport_width : Nat
  viewport_height : Nat
  device_scale_factor : Rat
  is_mobile : Bool
  has_touch : Bool
  platform : String
  device_memory : Nat
  hardware_concurrency : Nat
  max_touch_points : Nat
deriving DecidableEq, Repr

/-- The WebGL fingerprint random_profile derives for an archetype (it passes
platform, device_memory, hardware_concurrency and is_mobile). -/
def webgl_of (d : DeviceProfile) : WebGLFp :=
  generate_webgl_fingerprint d.platform d.is_mobile d.device_memory

/-- The canvas digest random_profile derives for an archetype (it passes
platform, device_memory and hardware_concurrency). -/
def canvas_of (d : DeviceProfile) : String :=
  generate_canvas_fingerprint d.platform d.device_memory d.hardware_concurrency

/-- The two mobile rendering triplets of generate_webgl_fingerprint. -/
def mobile_triplets : List WebGLFp := [apple_fp, android_fp]

/-- The five desktop rendering triplets of generate_webgl_fingerprint. -/
def desktop_triplets : List WebGLFp :=
  mac_fp :: linux_fp :: gpu_options.map windows_gpu

/-- TABLET_PROFILES of src/fingerprints.py, transcribed entry by entry
(user agent, viewport width/height, scale factor, is_mobile, has_touch,
platform, device memory, hardware concurrency, max touch points). -/
def TABLET_PROFILES : List DeviceProfile :=
  [⟨"Mozilla/5.0 (iPad; CPU OS 17_6 like Mac OS X) AppleWebKit/605.1.15 (KHTML, like Gecko) Version/17.6 Mobile/15E148 Safari/604.1",
    1024, 1366, 2.0, true, true, "MacIntel", 16, 8, 5⟩,
   ⟨"Mozilla/5.0 (iPad; CPU OS 16_7 like Mac OS X) AppleWebKit/605.1.15 (KHTML, like Gecko) Version/16.6 Mobile/15E148 Safari/604.1",
    1024, 1366, 2.0, true, true, "MacIntel", 16, 8, 5⟩,
   ⟨"Mozilla/5.0 (iPad; CPU OS 17_6 like Mac OS X) AppleWebKit/605.1.15 (KHTML, like Gecko) Version/17.6 Mobile/15E148 Safari/604.1",
    834, 1194, 2.0, true, true, "MacIntel", 8, 8, 5⟩,
   ⟨"Mozilla/5.0 (iPad; CPU OS 16_7 like Mac OS X) AppleWebKit/605.1.15 (KHTML, like Gecko) Version/16.6 Mobile/15E148 Safari/604.1",
    834, 1194, 2.0, true, true, "MacIntel", 8, 8, 5⟩,
   ⟨"Mozilla/5.0 (Linux; Android 13; SM-X916C) AppleWebKit/537.36 (KHTML, like Gecko) Chrome/127.0.0.0 Safari/537.36",
    800, 1280, 2.0, true, true, "Linux armv8l", 12, 8, 10⟩,
   ⟨"Mozilla/5.0 (Linux; Android 13; SM-X906C) AppleWebKit/537.36 (KHTML, like Gecko) Chrome/127.0.0.0 Safari/537.36",
    800, 1232, 2.0, true, true, "Linux armv8l", 8, 8, 10⟩,
   ⟨"Mozilla/5.0 (iPad; CPU OS 17_5 like Mac OS X) AppleWebKit/605.1.15 (KHTML, like Gecko) Version/17.5 Mobile/15E148 Safari/604.1",
    820, 1180, 2.0, true, true, "MacIntel", 10, 8, 5⟩,
   ⟨"Mozilla/5.0 (iPad; CPU OS 17_4 like Mac OS X) AppleWebKit/605.1.15 (KHTML, like Gecko) Version/17.4 Mobile/15E148 Safari/604.1",
    820, 1180, 2.0, true, true, "MacIntel", 10, 8, 5⟩,
   ⟨"Mozilla/5.0 (iPad; CPU OS 17_3 like Mac OS X) AppleWebKit/605.1.15 (KHTML, like Gecko) Version/17.3 Mobile/15E148 Safari/604.1",
    744, 1133, 2.0, true, true, "MacIntel", 6, 4, 5⟩,
   ⟨"Mozilla/5.0 (iPad; CPU OS 17_2 like Mac OS X) AppleWebKit/605.1.15 (KHTML, like Gecko) Version/17.2 Mobile/15E148 Safari/604.1",
    744, 1133, 2.0, true, true, "MacIntel", 6, 4, 5⟩,
   ⟨"Mozilla/5.0 (iPad; CPU OS 16_6 like Mac OS X) AppleWebKit/605.1.15 (KHTML, like Gecko) Version/16.6 Mobile/15E148 Safari/604.1",
    820, 1180, 2.0, true, true, "MacIntel", 6, 4, 5⟩,
   ⟨"Mozilla/5.0 (iPad; CPU OS 16_5 like Mac OS X) AppleWebKit/605.1.15 (KHTML, like Gecko) Version/16.5 Mobile/15E148 Safari/604.1",
    820, 1180, 2.0, true, true, "MacIntel", 6, 4, 5⟩,
   ⟨"Mozilla/5.0 (Linux; Android 13; SM-X916B) AppleWebKit/537.36 (KHTML, like Gecko) Chrome/131.0.0.0 Safari/537.36",
    900, 1440, 2.0, true, true, "Linux armv8l", 16, 12, 10⟩,
   ⟨"Mozilla/5.0 (Linux; Android 13; SM-X916U) AppleWebKit/537.36 (KHTML, like Gecko) Chrome/130.0.0.0 Safari/537.36",
    900, 1440, 2.0, true, true, "Linux armv8l", 16, 12, 10⟩,
   ⟨"Mozilla/5.0 (Linux; Android 13; SM-X816B) AppleWebKit/537.36 (KHTML, like Gecko) Chrome/129.0.0.0 Safari/537.36",
    800, 1280, 2.0, true, true, "Linux armv8l", 12, 8, 10⟩,
   ⟨"Mozilla/5.0 (Linux; Android 13; SM-X816U) AppleWebKit/537.36 (KHTML, like Gecko) Chrome/128.0.0.0 Safari/537.36",
    800, 1280, 2.0, true, true, "Linux armv8l", 12, 8, 10⟩,
   ⟨"Mozilla/5.0 (Linux; Android 12; SM-X906B) AppleWebKit/537.36 (KHTML, like Gecko) Chrome/127.0.0.0 Safari/537.36",
    900, 1440, 2.0, true, true, "Linux armv8l", 16, 8, 10⟩,
   ⟨"Mozilla/5.0 (Linux; Android 12; SM-X806B) AppleWebKit/537.36 (KHTML, like Gecko) Chrome/126.0.0.0 Safari/537.36",
    800, 1280, 2.0, true, true, "Linux armv8l", 8, 6, 10⟩,
   ⟨"Mozilla/5.0 (Windows NT 10.0; Win64; x64; Touch) AppleWebKit/537.36 (KHTML, like Gecko) Chrome/131.0.0.0 Safari/537.36",
    912, 1368, 1.5, true, true, "Win32", 16, 16, 10⟩,
   ⟨"Mozilla/5.0 (Windows NT 10.0; Win64; x64; Touch) AppleWebKit/537.36 (KHTML, like Gecko) Chrome/130.0.0.0 Safari/537.36",
    912, 1368, 1.5, true, true, "Win32", 32, 32, 10⟩,
   ⟨"Mozilla/5.0 (Linux; Android 13; Pixel Tablet) AppleWebKit/537.36 (KHTML, like Gecko) Chrome/129.0.0.0 Safari/537.36",
    840, 1344, 2.0, true, true, "Linux armv8l", 8, 8, 10⟩,
   ⟨"Mozilla/5.0 (Linux; Android 14; Pixel Tablet) AppleWebKit/537.36 (KHTML, like Gecko) Chrome/128.0.0.0 Safari/537.36",
    840, 1344, 2.0, true, true, "Linux armv8l", 8, 8, 10⟩,
   ⟨"Mozilla/5.0 (Linux; Android 11; TB-Q706F) AppleWebKit/537.36 (KHTML, like Gecko) Chrome/127.0.0.0 Safari/537.36",
    800, 1280, 2.0, true, true, "Linux armv8l", 8, 6, 10⟩,
   ⟨"Mozilla/5.0 (Linux; Android 12; TB-Q706F) AppleWebKit/537.36 (KHTML, like Gecko) Chrome/126.0.0.0 Safari/537.36",
    800, 1280, 2.0, true, true, "Linux armv8l", 8, 8, 10⟩,
   ⟨"Mozilla/5.0 (Linux; Android 11; KFTRWI) AppleWebKit/537.36 (KHTML, like Gecko) Chrome/125.0.0.0 Safari/537.36",
    800, 1280, 1.5, true, true, "Linux armv7l", 4, 3, 10⟩,
   ⟨"Mozilla/5.0 (Linux; Android 11; KFMAWI) AppleWebKit/537.36 (KHTML, like Gecko) Chrome/124.0.0.0 Safari/537.36",
    600, 1024, 1.5, true, true, "Linux armv7l", 2, 2, 10⟩,
   ⟨"Mozilla/5.0 (Linux; Android 13; 23073RPBFG) AppleWebKit/537.36 (KHTML, like Gecko) Chrome/123.0.0.0 Safari/537.36",
    840, 1344, 2.0, true, true, "Linux armv8l", 8, 8, 10⟩,
   ⟨"Mozilla/5.0 (Linux; Android 13; 2306FPCA3G) AppleWebKit/537.36 (KHTML, like Gecko) Chrome/122.0.0.0 Safari/537.36",
    1000, 1600, 2.0, true, true, "Linux armv8l", 12, 12, 10⟩,
   ⟨"Mozilla/5.0 (Linux; Android 13; OPD2203) AppleWebKit/537.36 (KHTML, like Gecko) Chrome/121.0.0.0 Safari/537.36",
    800, 1280, 2.0, true, true, "Linux armv8l", 12, 8, 10⟩,
   ⟨"Mozilla/5.0 (Linux; Android 13; OP594DL) AppleWebKit/537.36 (KHTML, like Gecko) Chrome/120.0.0.0 Safari/537.36",
    800, 1280, 2.0, true, true, "Linux armv8l", 12, 8, 10⟩]


/-! ## The resilient click loop hard_click (src/main.py)

hard_click polls a list of selectors against a live page.  The page and the
browser protocol are external, so one query of one selector at one instant is
modelled by an oracle Nat -> String -> ClickAttempt: given the current clock
(ms) and the selector, it reports what the primitives did and how long they
took.  The loop structure, the deadline arithmetic and the last-error
threading are translated from the source. -/

/-- MAX_WAIT of src/main.py: per click-attempt timeout, ms. -/
def MAX_WAIT : Nat := 8000

/-- POLL_MS of src/main.py: element polling interval, ms. -/
def POLL_MS : Nat := 100

/-- MAX_FIND_SEC of src/main.py: overall per-element budget, seconds. -/
def MAX_FIND_SEC : Nat := 60

/-- What one inner iteration of hard_click (one selector at one instant) did:

* notFound: page.wait_for_selector raised (PlaywrightTimeout or other);
  the loop records the error and sleeps POLL_MS before the next selector;
* foundNone: wait_for_selector returned a falsy element; the loop just
  continues with the next selector (no error recorded);
* clicked: some strategy of the fallback chain succeeded; elapsed includes
  the post-click sleep and close_google_ads, after which hard_click returns;
* unclickable: an element was found but every strategy failed; msg is the
  error of the last failed strategy (the final value of last_err). -/
inductive ClickAttempt where
  | notFound (elapsed : Nat) (msg : String)
  | foundNone (elapsed : Nat)
  | clicked (elapsed : Nat)
  | unclickable (elapsed : Nat) (msg : String)
deriving DecidableEq, Repr

/-- The raw duration the oracle reports for an attempt. -/
def attempt_elapsed : ClickAttempt → Nat
  | .notFound e _ => e
  | .foundNone e => e
  | .clicked e => e
  | .unclickable e _ => e

/-- Total time one non-successful inner iteration consumes: the notFound
branch additionally sleeps POLL_MS before continuing. -/
def attempt_time : ClickAttempt → Nat
  | .notFound e _ => e + POLL_MS
  | .foundNone e => e
  | .clicked e => e
  | .unclickable e _ => e

/-- The update an attempt makes to last_err. -/
def attempt_err : ClickAttempt → Option String
  | .notFound _ m => some m
  | .foundNone _ => none
  | .clicked _ => none
  | .unclickable _ m => some m

/-- Whether the attempt delivered the click. -/
def attempt_clicked : ClickAttempt → Bool
  | .clicked _ => true
  | _ => false

/-- last_err after an attempt (overwritten only when an error was observed). -/
def update_last (last : Option String) (o : ClickAttempt) : Option String :=
  match attempt_err o with
  | none => last
  | some m => some m

/-- One pass of the inner for-loop of hard_click over the selector list,
starting at clock t with recorded error last.  Returns the finishing clock of
a successful click (Sum.inl), or the clock and last_err after the whole pass
failed (Sum.inr). -/
def hcPass (env : Nat → String → ClickAttempt) :
    List String → Nat → Option String → Sum Nat (Nat × Option String)
  | [], t, last => Sum.inr (t, last)
  | sel :: rest, t, last =>
    match env t sel with
    | .clicked e => Sum.inl (t + e)
    | o => hcPass env rest (t + attempt_time o) (update_last last o)

/-- The exception hard_click raises when the budget is exhausted:
raise last_err or RuntimeError(f"Element not found/clickable: ..."). -/
inductive ClickError where
  | lastSeen (msg : String)
  | runtimeDefault (description : String)
deriving DecidableEq, Repr

/-- raise last_err or RuntimeError(...): the recorded error if any, else the
default RuntimeError carrying the description. -/
def mk_raise (description : String) : Option String → ClickError
  | some m => ClickError.lastSeen m
  | none => ClickError.runtimeDefault description

/-- Result of a hard_click call: the clock when it returned or raised, and
either success or the raised error. -/
structure HCResult where
  endTime : Nat
  outcome : Except ClickError Unit
deriving Repr

/-- The while-loop of hard_click.  The deadline test happens only at the top
of the loop, exactly as in the source.  The loop is written with an explicit
fuel argument so that it is structurally recursive; every iteration advances
the clock by at least POLL_MS (the trailing sleep), so the fuel chosen in
hard_click below is never exhausted before the deadline (proved in
hcLoopF_fuel_stable), and the fuel-out base case coincides with the
deadline-reached branch. -/
def hcLoopF (env : Nat → String → ClickAttempt) (description : String)
    (sels : List String) (deadline : Nat) :
    Nat → Nat → Option String → HCResult
  | 0, t, last => ⟨t, Except.error (mk_raise description last)⟩
  | fuel + 1, t, last =>
    if t < deadline then
      match hcPass env sels t last with
      | Sum.inl tEnd => ⟨tEnd, Except.ok ()⟩
      | Sum.inr (t2, last2) => hcLoopF env description sels deadline fuel
          (t2 + POLL_MS) last2
    else ⟨t, Except.error (mk_raise description last)⟩

/-- Fuel hard_click hands to its loop: enough for every iteration of the
60-second window even if each pass only consumes the mandatory trailing
sleep. -/
def hcFuel : Nat := MAX_FIND_SEC * 1000 / POLL_MS + 1

/-- hard_click of src/main.py: poll [selector] + many_selectors against the
oracle until one activation is delivered or the 60-second deadline passes,
then raise.  t0 is the starting clock. -/
def hard_click (env : Nat → String → ClickAttempt)
    (selector description : String) (many_selectors : List String)
    (t0 : Nat) : HCResult :=
  hcLoopF env description (selector :: many_selectors)
    (t0 + MAX_FIND_SEC * 1000) hcFuel t0 none

/-- The value of last_err when the loop of hard_click runs out of budget:
the same iteration as hcLoopF, projected onto the recorded error. -/
def final_last (env : Nat → String → ClickAttempt) (sels : List String)
    (deadline : Nat) : Nat → Nat → Option String → Option String
  | 0, _, last => last
  | fuel + 1, t, last =>
    if t < deadline then
      match hcPass env sels t last with
      | Sum.inl _ => last
      | Sum.inr (t2, last2) => final_last env sels deadline fuel
          (t2 + POLL_MS) last2
    else last

/-! ## The session runner run_once (src/main.py)

Every fallible external call of the body of run_once is decided by a RunEnv
oracle.  Calls run_once wraps in its own try/except (page.goto) or that never
raise (wait_for_load, close_google_ads, the sleeps) need no outcome: a goto
failure is swallowed on the spot.  The finally block closes the context and
the browser, each under contextlib.suppress(Exception) and each guarded by
"is not None", and appends the Done record to the (shared) results list; the
model counts those close invocations.  The scope is the body of the
async-with block, which is where the claim's three exit paths (success,
mid-step failure, launch failure) live. -/

/-- StepResult of src/main.py. -/
structure StepResult where
  step : String
  status : String
  detail : String
deriving DecidableEq, Repr

/-- Outcomes of the fallible external calls made by one run_once call.
launch2 is the relaunch attempted after "playwright install" when launch1
raised.  step n is the hard_click of step n (1-10).  context_close and
browser_close are the teardown calls of the finally block; their outcomes are
deliberately never consulted by the model because the source wraps both in
contextlib.suppress(Exception).  elapsed_detail is the formatted elapsed-time
text of the Done record (the clock is external). -/
structure RunEnv where
  launch1 : Except String Unit
  launch2 : Except String Unit
  new_context : Except String Unit
  add_init_script1 : Except String Unit
  add_init_script2 : Except String Unit
  new_page : Except String Unit
  page_evaluate : Except String Unit
  goto : Except String Unit
  step : Nat → Except String Unit
  context_close : Except String Unit
  browser_close : Except String Unit
  elapsed_detail : String

/-- The fixed interaction script of run_once: step number, step label, and
the detail recorded on success (step 10 records its 5-second pre-click
wait). -/
def click_steps : List (Nat × String × String) :=
  [(1, "Step 1", ""), (2, "Step 2", ""), (3, "Step 3", ""),
   (4, "Step 4", ""), (5, "Step 5", ""), (6, "Step 6", ""),
   (7, "Step 7", ""), (8, "Step 8", ""), (9, "Step 9", ""),
   (10, "Step 10", "Waited 5s before click")]

/-- Execute the step sequence: each step either raises (propagating its
error) or appends its StepResult. -/
def run_steps (step : Nat → Except String Unit) :
    List (Nat × String × String) → List StepResult →
    Except String (List StepResult)
  | [], acc => Except.ok acc
  | (i, label, detail) :: rest, acc =>
    match step i with
    | Except.error e => Except.error e
    | Except.ok _ => run_steps step rest (acc ++ [⟨label, "OK", detail⟩])

/-- The part of the run_once body after a successful browser launch: returns
the body outcome and the two acquisition facts (browser acquired, context
acquired) the finally block's None-guards test. -/
def run_once_after_launch (env : RunEnv) (url : String) :
    Except String (List StepResult) × Bool × Bool :=
  match env.new_context with
  | Except.error e => (Except.error e, true, false)
  | Except.ok _ =>
    match env.add_init_script1 with
    | Except.error e => (Except.error e, true, true)
    | Except.ok _ =>
      match env.add_init_script2 with
      | Except.error e => (Except.error e, true, true)
      | Except.ok _ =>
        match env.new_page with
        | Except.error e => (Except.error e, true, true)
        | Except.ok _ =>
          match env.page_evaluate with
          | Except.error e => (Except.error e, true, true)
          | Except.ok _ =>
            match run_steps env.step click_steps [⟨"Open URL", "OK", url⟩] with
            | Except.error e => (Except.error e, true, true)
            | Except.ok rs => (Except.ok rs, true, true)

/-- The try-block body of run_once: first launch attempt, retry after
installing the browser, then the rest.  A goto failure is swallowed by the
inner try/except of the source before the Open URL record is appended, which
is why env.goto does not influence the outcome. -/
def run_once_body (env : RunEnv) (url : String) :
    Except String (List StepResult) × Bool × Bool :=
  match env.launch1 with
  | Except.ok _ => run_once_after_launch env url
  | Except.error _ =>
    match env.launch2 with
    | Except.ok _ => run_once_after_launch env url
    | Except.error e => (Except.error e, false, false)

/-- Observable result of one run_once call: the returned value or the
propagated exception, plus how many times each teardown close was invoked by
the finally block. -/
structure RunResult where
  result : Except String (List StepResult)
  context_close_calls : Nat
  browser_close_calls : Nat
deriving Repr

/-- run_once of src/main.py.  The finally block runs exactly once on every
exit of the body: it invokes context.close() iff the context was acquired and
browser.close() iff the browser was acquired, swallowing their outcomes
(contextlib.suppress), and appends the Done record to the shared results
list, which is therefore visible in the returned list on the success path. -/
def run_once (env : RunEnv) (url : String) : RunResult :=
  let b := run_once_body env url
  { result :=
      match b.1 with
      | Except.ok rs => Except.ok (rs ++ [⟨"Done", "OK", env.elapsed_detail⟩])
      | Except.error e => Except.error e
    context_close_calls := if b.2.2 then 1 else 0
    browser_close_calls := if b.2.1 then 1 else 0 }

/-- Whether the body acquired a browser: the first launch succeeded or the
retry did. -/
def browser_acquired (env : RunEnv) : Bool :=
  (match env.launch1 with | Except.ok _ => true | Except.error _ => false) ||
  (match env.launch2 with | Except.ok _ => true | Except.error _ => false)

/-- Whether the body acquired a context: a browser was acquired and
new_context succeeded. -/
def context_acquired (env : RunEnv) : Bool :=
  browser_acquired env &&
  (match env.new_context with | Except.ok _ => true | Except.error _ => false)

/-! ## The supervisor worker loop runner_task (src/main.py)

One iteration of the while-True body of runner_task: pick a URL, mark the
state running, call run_once, and update the counters.  run_once itself
mutates state.current_step while it runs; the label it leaves behind on a
failing iteration is environment-determined (step_at).  The except branch
catches every exception of run_once, so an iteration is total: no failure
escapes the loop boundary. -/

/-- InstanceState of src/main.py (timestamps are externally supplied clock
values). -/
structure InstanceState where
  id : Nat
  runs : Nat
  successes : Nat
  failures : Nat
  current_step : String
  last_url : String
  last_detail : String
  status : String
  started_at : Nat
  last_duration : Nat
deriving DecidableEq, Repr

/-- A fresh InstanceState as built in main(): the dataclass defaults, with
the construction-time clock. -/
def fresh_state (id : Nat) (now : Nat) : InstanceState :=
  { id := id, runs := 0, successes := 0, failures := 0,
    current_step := "idle", last_url := "", last_detail := "",
    status := "idle", started_at := now, last_duration := 0 }

/-- External inputs of the worker loop, per iteration index: the picked URL,
the outcome of the run_once call, the current_step label run_once's internal
mutations leave behind, and the iteration-start clock. -/
structure WorkerEnv where
  pick_url : Nat → String
  run_outcome : Nat → Except String (List StepResult)
  step_at : Nat → String
  started_clock : Nat → Nat

/-- One iteration of the while-True body of runner_task. -/
def runner_task_step (env : WorkerEnv) (i : Nat) (s : InstanceState) :
    InstanceState :=
  let s1 := { s with
    status := "running"
    current_step := "pick url"
    last_url := env.pick_url i
    started_at := env.started_clock i }
  match env.run_outcome i with
  | Except.ok results =>
    { s1 with
      runs := s1.runs + 1
      successes := s1.successes + 1
      last_detail := ((results.getLast?).map StepResult.detail).getD ""
      status := "idle"
      current_step := "sleep 1s" }
  | Except.error e =>
    { s1 with
      current_step := env.step_at i
      runs := s1.runs + 1
      failures := s1.failures + 1
      status := "error/restarting"
      last_detail := e }

/-- K iterations of the runner_task loop from state s0. -/
def runner_task_iter (env : WorkerEnv) (s0 : InstanceState) :
    Nat → InstanceState
  | 0 => s0
  | k + 1 => runner_task_step env k (runner_task_iter env s0 k)

/-! ## Concrete oracles and archetypes used by witnesses and counterexamples -/

/-- Oracle for the C1 counterexample: the element is found at once but every
click strategy fails, the three timed strategies (forced click, unforced
click, page.click) each spending their full 8-second MAX_WAIT, as the source
permits. -/
def env_stuck_element : Nat → String → ClickAttempt :=
  fun _ _ =>
    ClickAttempt.unclickable (MAX_WAIT + MAX_WAIT + MAX_WAIT)
      "Timeout 8000ms exceeded"

/-- Oracle for the C1 witness: the selector never appears and each wait costs
exactly the polling timeout. -/
def env_poll_only : Nat → String → ClickAttempt :=
  fun _ _ => ClickAttempt.notFound POLL_MS "Timeout 100ms exceeded"

/-- Oracle for the C6 witness: every wait for the selector times out. -/
def env_never_found : Nat → String → ClickAttempt :=
  fun _ _ => ClickAttempt.notFound POLL_MS "Timeout 100ms exceeded"

/-- A Windows/Chrome desktop archetype of DESKTOP_PROFILES (first entry). -/
def profile_win_chrome : DeviceProfile :=
  ⟨"Mozilla/5.0 (Windows NT 10.0; Win64; x64) AppleWebKit/537.36 (KHTML, like Gecko) Chrome/127.0.0.0 Safari/537.36",
   1920, 1080, 1, false, false, "Win32", 8, 8, 0⟩

/-- A Windows/Edge desktop archetype of DESKTOP_PROFILES sharing platform,
memory, concurrency and mobility with profile_win_chrome while differing in
its identification string. -/
def profile_win_edge : DeviceProfile :=
  ⟨"Mozilla/5.0 (Windows NT 10.0; Win64; x64) AppleWebKit/537.36 (KHTML, like Gecko) Chrome/127.0.0.0 Safari/537.36 Edg/127.0.0.0",
   1920, 1080, 1, false, false, "Win32", 8, 8, 0⟩

/-- A worker environment on which every run_once call raises. -/
def worker_env_always_fails : WorkerEnv :=
  { pick_url := fun _ => "https://example.com"
    run_outcome := fun _ => Except.error "Element not found/clickable: div.start_btn"
    step_at := fun _ => "step 1"
    started_clock := fun _ => 0 }

/-! ## Theorems -/

/-- A failed pass never moves the clock backwards. -/
theorem hcPass_inr_ge (env : Nat → String → ClickAttempt) :
    ∀ (l : List String) (t : Nat) (last : Option String) (t2 : Nat)
      (last2 : Option String),
      hcPass env l t last = Sum.inr (t2, last2) → t ≤ t2 := by
  intro l
  induction l with
  | nil =>
    intro t last t2 last2 h
    simp only [hcPass, Sum.inr.injEq, Prod.mk.injEq] at h
    omega
  | cons s rest ih =>
    intro t last t2 last2 h
    cases ho : env t s with
    | clicked e => simp [hcPass, ho] at h
    | notFound e m =>
      simp only [hcPass, ho] at h
      exact le_trans (Nat.le_add_right t _) (ih _ _ _ _ h)
    | foundNone e =>
      simp only [hcPass, ho] at h
      exact le_trans (Nat.le_add_right t _) (ih _ _ _ _ h)
    | unclickable e m =>
      simp only [hcPass, ho] at h
      exact le_trans (Nat.le_add_right t _) (ih _ _ _ _ h)

/-- If the raw duration of an attempt is at most B, the whole inner iteration
(including the notFound sleep) takes at most B + POLL_MS. -/
theorem attempt_time_le (o : ClickAttempt) (B : Nat)
    (h : attempt_elapsed o ≤ B) : attempt_time o ≤ B + POLL_MS := by
  cases o <;> simp [attempt_elapsed, attempt_time, POLL_MS] at h ⊢ <;> omega

/-- One pass over the selector list takes at most
l.length * (B + POLL_MS) when every attempt lasts at most B. -/
theorem hcPass_bound (env : Nat → String → ClickAttempt) (B : Nat)
    (hB : ∀ t s, attempt_elapsed (env t s) ≤ B) :
    ∀ (l : List String) (t : Nat) (last : Option String),
      (∀ tEnd, hcPass env l t last = Sum.inl tEnd →
        tEnd ≤ t + l.length * (B + POLL_MS)) ∧
      (∀ t2 last2, hcPass env l t last = Sum.inr (t2, last2) →
        t2 ≤ t + l.length * (B + POLL_MS)) := by
  intro l
  induction l with
  | nil =>
    refine fun t last => ⟨fun tEnd h => ?_, fun t2 last2 h => ?_⟩
    · simp [hcPass] at h
    · simp only [hcPass, Sum.inr.injEq, Prod.mk.injEq] at h
      omega
  | cons s rest ih =>
    intro t last
    have hts := hB t s
    have hstep : attempt_time (env t s) ≤ B + POLL_MS :=
      attempt_time_le _ _ hts
    have hlen : (s :: rest).length * (B + POLL_MS)
        = rest.length * (B + POLL_MS) + (B + POLL_MS) := by
      simp [List.length_cons]
      ring
    refine ⟨fun tEnd h => ?_, fun t2 last2 h => ?_⟩
    · cases ho : env t s with
      | clicked e =>
        rw [ho] at hts hstep
        simp only [hcPass, ho, Sum.inl.injEq] at h
        simp only [attempt_elapsed] at hts
        omega
      | notFound e m =>
        rw [ho] at hstep
        simp only [hcPass, ho] at h
        have := (ih (t + attempt_time (ClickAttempt.notFound e m)) _).1 tEnd h
        omega
      | foundNone e =>
        rw [ho] at hstep
        simp only [hcPass, ho] at h
        have := (ih (t + attempt_time (ClickAttempt.foundNone e)) _).1 tEnd h
        omega
      | unclickable e m =>
        rw [ho] at hstep
        simp only [hcPass, ho] at h
        have := (ih (t + attempt_time (ClickAttempt.unclickable e m)) _).1 tEnd h
        omega
    · cases ho : env t s with
      | clicked e => simp [hcPass, ho] at h
      | notFound e m =>
        rw [ho] at hstep
        simp only [hcPass, ho] at h
        have := (ih (t + attempt_time (ClickAttempt.notFound e m)) _).2 t2 last2 h
        omega
      | foundNone e =>
        rw [ho] at hstep
        simp only [hcPass, ho] at h
        have := (ih (t + attempt_time (ClickAttempt.foundNone e)) _).2 t2 last2 h
        omega
      | unclickable e m =>
        rw [ho] at hstep
        simp only [hcPass, ho] at h
        have := (ih (t + attempt_time (ClickAttempt.unclickable e m)) _).2 t2 last2 h
        omega

/-- Once the clock has reached the deadline, the loop raises immediately
(the fuel-out base case agrees with the deadline branch). -/
theorem hcLoopF_stuck (env : Nat → String → ClickAttempt) (d : String)
    (sels : List String) (deadline : Nat) :
    ∀ (fuel t : Nat) (last : Option String), ¬ t < deadline →
      hcLoopF env d sels deadline fuel t last
        = ⟨t, Except.error (mk_raise d last)⟩ := by
  intro fuel t last h
  cases fuel with
  | zero => rfl
  | succ f => simp [hcLoopF, h]

/-- The loop finishes at most one full pass plus one trailing sleep past the
deadline, for any fuel, when every attempt lasts at most B. -/
theorem hcLoopF_bound (env : Nat → String → ClickAttempt) (d : String)
    (sels : List String) (deadline B : Nat)
    (hB : ∀ t s, attempt_elapsed (env t s) ≤ B) :
    ∀ (fuel t : Nat) (last : Option String), t < deadline →
      (hcLoopF env d sels deadline fuel t last).endTime
        ≤ deadline + sels.length * (B + POLL_MS) + POLL_MS := by
  intro fuel
  induction fuel with
  | zero =>
    intro t last ht
    simp only [hcLoopF]
    omega
  | succ f ih =>
    intro t last ht
    have hcall : hcLoopF env d sels deadline (f + 1) t last
        = match hcPass env sels t last with
          | Sum.inl tEnd => ⟨tEnd, Except.ok ()⟩
          | Sum.inr (t2, last2) =>
              hcLoopF env d sels deadline f (t2 + POLL_MS) last2 := by
      simp only [hcLoopF, if_pos ht]
    rw [hcall]
    cases hp : hcPass env sels t last with
    | inl tEnd =>
      have := (hcPass_bound env B hB sels t last).1 tEnd hp
      simp only []
      omega
    | inr p =>
      obtain ⟨t2, last2⟩ := p
      have hle := (hcPass_bound env B hB sels t last).2 t2 last2 hp
      by_cases h2 : t2 + POLL_MS < deadline
      · exact ih (t2 + POLL_MS) last2 h2
      · show (hcLoopF env d sels deadline f (t2 + POLL_MS) last2).endTime ≤ _
        rw [hcLoopF_stuck env d sels deadline f (t2 + POLL_MS) last2 h2]
        simp only [POLL_MS] at hle ⊢
        omega

/-- C1, amended.  The original claim (termination within overallBudget plus
one pollInterval) is refuted by hard_click_overruns_poll_margin below: the
deadline is tested only at the top of the while loop, so the final pass runs
to completion.  What the source guarantees is: whenever every primitive
find/click attempt completes within some bound B, the call ends no later than
the 60-second budget plus one full pass over the selector list
((n selectors) * (B + pollInterval)) plus the trailing pollInterval sleep,
and it always ends either by delivering the activation or by raising. -/
theorem hard_click_bounded_by_one_pass (env : Nat → String → ClickAttempt)
    (selector description : String) (many_selectors : List String)
    (t0 B : Nat) (hB : ∀ t s, attempt_elapsed (env t s) ≤ B) :
    (hard_click env selector description many_selectors t0).endTime
      ≤ t0 + MAX_FIND_SEC * 1000 +
        (many_selectors.length + 1) * (B + POLL_MS) + POLL_MS ∧
    ((hard_click env selector description many_selectors t0).outcome
        = Except.ok () ∨
      ∃ e, (hard_click env selector description many_selectors t0).outcome
        = Except.error e) := by
  constructor
  · have h := hcLoopF_bound env description (selector :: many_selectors)
      (t0 + MAX_FIND_SEC * 1000) B hB hcFuel t0 none
      (Nat.lt_add_of_pos_right (by decide))
    simpa [hard_click, List.length_cons] using h
  · cases h : (hard_click env selector description many_selectors t0).outcome with
    | ok u =>
      cases u
      exact Or.inl rfl
    | error e => exact Or.inr ⟨e, rfl⟩

/-- Witness for C1 (amended) at a concrete oracle: with every attempt lasting
exactly one polling interval, a one-selector call ends within
budget + 1 * (POLL_MS + POLL_MS) + POLL_MS. -/
theorem hard_click_bounded_by_one_pass_witness :
    (∀ t s, attempt_elapsed (env_poll_only t s) ≤ POLL_MS) ∧
    (hard_click env_poll_only "div.start_btn" "div.start_btn" [] 0).endTime
      ≤ 0 + MAX_FIND_SEC * 1000 +
        (([] : List String).length + 1) * (POLL_MS + POLL_MS) + POLL_MS :=
  ⟨fun _ _ => Nat.le_refl _,
   (hard_click_bounded_by_one_pass env_poll_only "div.start_btn"
      "div.start_btn" [] 0 POLL_MS (fun _ _ => Nat.le_refl _)).1⟩

/-- Counterexample to C1 as stated: with one selector whose element is found
but unclickable (each timed strategy exhausting its 8-second MAX_WAIT, so one
pass costs 24 seconds), the call that starts at 0 ends at 72300 ms, far more
than one pollInterval past the 60000 ms budget. -/
theorem hard_click_overruns_poll_margin :
    ¬ ((hard_click env_stuck_element "div.start_btn" "div.start_btn" []
        0).endTime ≤ 0 + MAX_FIND_SEC * 1000 + POLL_MS) := by
  decide

/-- A pass never delivers a click when the oracle never reports one. -/
theorem hcPass_no_click (env : Nat → String → ClickAttempt)
    (hnc : ∀ t s, attempt_clicked (env t s) = false) :
    ∀ (l : List String) (t : Nat) (last : Option String),
      ∃ t2 last2, hcPass env l t last = Sum.inr (t2, last2) := by
  intro l
  induction l with
  | nil => exact fun t last => ⟨t, last, rfl⟩
  | cons s rest ih =>
    intro t last
    cases ho : env t s with
    | clicked e =>
      have := hnc t s
      rw [ho] at this
      simp [attempt_clicked] at this
    | notFound e m =>
      simpa only [hcPass, ho] using ih _ _
    | foundNone e =>
      simpa only [hcPass, ho] using ih _ _
    | unclickable e m =>
      simpa only [hcPass, ho] using ih _ _

/-- When no attempt ever succeeds, the loop raises, and the raised error is
built from the final recorded last_err (the replay computed by final_last). -/
theorem hcLoopF_no_click_error (env : Nat → String → ClickAttempt)
    (d : String) (sels : List String) (deadline : Nat)
    (hnc : ∀ t s, attempt_clicked (env t s) = false) :
    ∀ (fuel t : Nat) (last : Option String), ∃ tEnd,
      hcLoopF env d sels deadline fuel t last
        = ⟨tEnd, Except.error (mk_raise d
            (final_last env sels deadline fuel t last))⟩ := by
  intro fuel
  induction fuel with
  | zero => exact fun t last => ⟨t, rfl⟩
  | succ f ih =>
    intro t last
    by_cases ht : t < deadline
    · obtain ⟨t2, last2, hp⟩ := hcPass_no_click env hnc sels t last
      have e1 : hcLoopF env d sels deadline (f + 1) t last
          = hcLoopF env d sels deadline f (t2 + POLL_MS) last2 := by
        simp only [hcLoopF, if_pos ht, hp]
      have e2 : final_last env sels deadline (f + 1) t last
          = final_last env sels deadline f (t2 + POLL_MS) last2 := by
        simp only [final_last, if_pos ht, hp]
      rw [e1, e2]
      exact ih _ _
    · rw [hcLoopF_stuck env d sels deadline (f + 1) t last ht]
      have e2 : final_last env sels deadline (f + 1) t last = last := by
        simp only [final_last, if_neg ht]
      rw [e2]
      exact ⟨t, rfl⟩

/-- C6: if no descriptor and no activation strategy ever succeeds, hard_click
raises once the 60-second budget is exhausted, and the raised failure carries
the last error observed during the attempts (final_last replays the attempt
sequence and keeps the most recent error; when none was observed the raise is
the default RuntimeError carrying the description, exactly the source's
"raise last_err or RuntimeError(...)"). -/
theorem hard_click_exhausted_raises (env : Nat → String → ClickAttempt)
    (selector description : String) (many_selectors : List String) (t0 : Nat)
    (hnc : ∀ t s, attempt_clicked (env t s) = false) :
    ∃ tEnd, hard_click env selector description many_selectors t0
      = ⟨tEnd, Except.error (mk_raise description
          (final_last env (selector :: many_selectors)
            (t0 + MAX_FIND_SEC * 1000) hcFuel t0 none))⟩ := by
  simpa [hard_click] using
    hcLoopF_no_click_error env description (selector :: many_selectors)
      (t0 + MAX_FIND_SEC * 1000) hnc hcFuel t0 none

/-- Witness for C6 at a concrete oracle on which every wait times out. -/
theorem hard_click_exhausted_raises_witness :
    (∀ t s, attempt_clicked (env_never_found t s) = false) ∧
    ∃ tEnd, hard_click env_never_found "a.get-link" "a.get-link" [] 0
      = ⟨tEnd, Except.error (mk_raise "a.get-link"
          (final_last env_never_found ["a.get-link"]
            (0 + MAX_FIND_SEC * 1000) hcFuel 0 none))⟩ :=
  ⟨fun _ _ => rfl,
   hard_click_exhausted_raises env_never_found "a.get-link" "a.get-link" [] 0
     (fun _ _ => rfl)⟩

/-- Model validation: the fuel hard_click passes to its loop is immaterial.
Whenever the remaining fuel times the minimum per-iteration advance POLL_MS
covers the distance to the deadline (as hcFuel does from any start), adding
fuel does not change the result: the loop only ever stops at the deadline
test, never by running dry. -/
theorem hcLoopF_fuel_stable (env : Nat → String → ClickAttempt) (d : String)
    (sels : List String) (deadline : Nat) :
    ∀ (fuel t : Nat) (last : Option String),
      deadline ≤ t + fuel * POLL_MS →
      hcLoopF env d sels deadline (fuel + 1) t last
        = hcLoopF env d sels deadline fuel t last := by
  intro fuel
  induction fuel with
  | zero =>
    intro t last h
    simp only [Nat.zero_mul, Nat.add_zero] at h
    rw [hcLoopF_stuck env d sels deadline 1 t last (by omega)]
    rfl
  | succ f ih =>
    intro t last h
    by_cases ht : t < deadline
    · have e1 : hcLoopF env d sels deadline (f + 1 + 1) t last
          = match hcPass env sels t last with
            | Sum.inl tEnd => ⟨tEnd, Except.ok ()⟩
            | Sum.inr (t2, last2) =>
                hcLoopF env d sels deadline (f + 1) (t2 + POLL_MS) last2 := by
        simp only [hcLoopF, if_pos ht]
      have e2 : hcLoopF env d sels deadline (f + 1) t last
          = match hcPass env sels t last with
            | Sum.inl tEnd => ⟨tEnd, Except.ok ()⟩
            | Sum.inr (t2, last2) =>
                hcLoopF env d sels deadline f (t2 + POLL_MS) last2 := by
        simp only [hcLoopF, if_pos ht]
      rw [e1, e2]
      cases hp : hcPass env sels t last with
      | inl tEnd => rfl
      | inr p =>
        obtain ⟨t2, last2⟩ := p
        have hge := hcPass_inr_ge env sels t last t2 last2 hp
        have hcov : deadline ≤ (t2 + POLL_MS) + f * POLL_MS := by
          have : t + (f + 1) * POLL_MS = t + POLL_MS + f * POLL_MS := by ring
          omega
        exact ih (t2 + POLL_MS) last2 hcov
    · rw [hcLoopF_stuck env d sels deadline (f + 1 + 1) t last ht,
        hcLoopF_stuck env d sels deadline (f + 1) t last ht]

/-- C2: the rendering fingerprint and the content digest are pure functions
of the archetype's platform, memory, concurrency and mobility fields: two
archetypes agreeing on those four fields (whatever their identification
string, viewport, scale or touch data) derive identical WebGL triplets and
identical canvas digests; in particular repeated synthesis from one archetype
is deterministic. -/
theorem synthesize_deterministic (a b : DeviceProfile)
    (hp : a.platform = b.platform) (hmem : a.device_memory = b.device_memory)
    (hcon : a.hardware_concurrency = b.hardware_concurrency)
    (hmob : a.is_mobile = b.is_mobile) :
    webgl_of a = webgl_of b ∧ canvas_of a = canvas_of b := by
  unfold webgl_of canvas_of
  rw [hp, hmem, hcon, hmob]
  exact ⟨rfl, rfl⟩

/-- Witness for C2: the Chrome and Edge Windows archetypes share the four
derivation fields, so their derived WebGL triplet and canvas digest agree. -/
theorem synthesize_deterministic_witness :
    webgl_of profile_win_chrome = webgl_of profile_win_edge ∧
    canvas_of profile_win_chrome = canvas_of profile_win_edge :=
  synthesize_deterministic profile_win_chrome profile_win_edge rfl rfl rfl rfl

/-- C3: for every platform string and memory size, a mobile-flagged
derivation yields one of the two mobile triplets and never a desktop one,
and a desktop derivation yields one of the five desktop triplets and never a
mobile one. -/
theorem webgl_mobile_desktop_consistency (p : String) (mem : Nat) :
    (generate_webgl_fingerprint p true mem ∈ mobile_triplets ∧
      generate_webgl_fingerprint p true mem ∉ desktop_triplets) ∧
    (generate_webgl_fingerprint p false mem ∈ desktop_triplets ∧
      generate_webgl_fingerprint p false mem ∉ mobile_triplets) := by
  have hwin : windows_gpu (gpu_options.getD (mem % gpu_options.length)
        ("", "")) ∈ desktop_triplets ∧
      windows_gpu (gpu_options.getD (mem % gpu_options.length)
        ("", "")) ∉ mobile_triplets := by
    have hlt : mem % gpu_options.length < gpu_options.length :=
      Nat.mod_lt _ (by decide)
    have hlen3 : gpu_options.length = 3 := rfl
    have hcases : mem % gpu_options.length = 0 ∨
        mem % gpu_options.length = 1 ∨ mem % gpu_options.length = 2 := by
      omega
    rcases hcases with h | h | h <;> rw [h] <;> exact ⟨by decide, by decide⟩
  constructor
  · by_cases hip : strContains p "iPhone" = true
    · have h : generate_webgl_fingerprint p true mem = apple_fp := by
        simp [generate_webgl_fingerprint, hip]
      rw [h]
      exact ⟨by decide, by decide⟩
    · have h : generate_webgl_fingerprint p true mem = android_fp := by
        simp [generate_webgl_fingerprint, hip]
      rw [h]
      exact ⟨by decide, by decide⟩
  · by_cases hm : strContains p "Mac" = true
    · have h : generate_webgl_fingerprint p false mem = mac_fp := by
        simp [generate_webgl_fingerprint, hm]
      rw [h]
      exact ⟨by decide, by decide⟩
    · by_cases hl : strContains p "Linux" = true
      · have h : generate_webgl_fingerprint p false mem = linux_fp := by
          simp [generate_webgl_fingerprint, hm, hl]
        rw [h]
        exact ⟨by decide, by decide⟩
      · have h : generate_webgl_fingerprint p false mem
            = windows_gpu (gpu_options.getD (mem % gpu_options.length)
                ("", "")) := by
          simp [generate_webgl_fingerprint, hm, hl]
        rw [h]
        exact hwin

/-- C8: on the desktop branch for a platform that is neither Mac nor Linux
(the Windows branch), the derived triplet is the entry of the fixed
three-element GPU list at index device_memory mod 3 - a deterministic
function of the memory field. -/
theorem webgl_windows_gpu_by_memory (p : String) (mem : Nat)
    (hm : strContains p "Mac" = false) (hl : strContains p "Linux" = false) :
    generate_webgl_fingerprint p false mem
        = windows_gpu (gpu_options.getD (mem % 3) ("", "")) ∧
    gpu_options.length = 3 := by
  constructor
  · have h : generate_webgl_fingerprint p false mem
        = windows_gpu (gpu_options.getD (mem % gpu_options.length)
            ("", "")) := by
      simp [generate_webgl_fingerprint, hm, hl]
    exact h.trans rfl
  · rfl

/-- Witness for C8: platform "Win32" with 7 GB of memory selects the GPU
entry at index 7 mod 3 = 1. -/
theorem webgl_windows_gpu_by_memory_witness :
    strContains "Win32" "Mac" = false ∧
    generate_webgl_fingerprint "Win32" false 7
      = windows_gpu (gpu_options.getD (7 % 3) ("", "")) :=
  ⟨by decide,
   (webgl_windows_gpu_by_memory "Win32" 7 (by decide) (by decide)).1⟩

/-- C7: synthesis is total and an unrecognized platform string (matching
none of Mac / Linux / Win32) lands in each derivation's default desktop
branch: the WebGL derivation falls to its Windows GPU branch, the font
derivation to its Linux extension branch, the transport derivation (for a
Chrome identification string) to its Chrome/Linux branch, and the stealth
bundle composes exactly those fallback values.  All the embedded derivations
are total Lean functions of arbitrary platform / user-agent strings and
arbitrary memory / concurrency values, mirroring the lookup-and-literal-only
Python code: no input makes any of them raise. -/
theorem synthesis_total_fallback (p ua : String) (mem conc tp : Nat)
    (hm : strContains p "Mac" = false) (hl : strContains p "Linux" = false)
    (hw : strContains p "Win32" = false) :
    generate_webgl_fingerprint p false mem
        = windows_gpu (gpu_options.getD (mem % 3) ("", "")) ∧
    generate_fonts_list p = base_fonts ++ linux_fonts ∧
    (strContains ua "Chrome" = true →
      generate_tls_fingerprint p ua = chrome_linux_tls) ∧
    create_stealth_scripts p mem conc tp =
      { canvas_fp := generate_canvas_fingerprint p mem conc
        webgl_fp := windows_gpu (gpu_options.getD (mem % 3) ("", ""))
        audio_fp := md5hex (p ++ "_audio")
        fonts := base_fonts ++ linux_fonts
        hardware_concurrency := conc
        device_memory := mem } := by
  have hwebgl : generate_webgl_fingerprint p false mem
      = windows_gpu (gpu_options.getD (mem % gpu_options.length) ("", "")) := by
    simp [generate_webgl_fingerprint, hm, hl]
  have hfonts : generate_fonts_list p = base_fonts ++ linux_fonts := by
    simp [generate_fonts_list, hw, hm]
  refine ⟨hwebgl.trans rfl, hfonts, ?_, ?_⟩
  · intro hc
    simp [generate_tls_fingerprint, hc, hw, hm]
  · simp only [create_stealth_scripts, hwebgl, hfonts]
    rfl

/-- Witness for C7: "FreeBSD amd64" matches no recognized platform and falls
back to the Linux font branch and (for a Chrome UA) the Chrome/Linux
transport branch. -/
theorem synthesis_total_fallback_witness :
    strContains "FreeBSD amd64" "Mac" = false ∧
    generate_fonts_list "FreeBSD amd64" = base_fonts ++ linux_fonts ∧
    generate_tls_fingerprint "FreeBSD amd64" "Mozilla/5.0 Chrome/127.0"
      = chrome_linux_tls :=
  ⟨by decide,
   (synthesis_total_fallback "FreeBSD amd64" "Mozilla/5.0 Chrome/127.0"
      4 4 0 (by decide) (by decide) (by decide)).2.1,
   (synthesis_total_fallback "FreeBSD amd64" "Mozilla/5.0 Chrome/127.0"
      4 4 0 (by decide) (by decide) (by decide)).2.2.1 (by decide)⟩

/-- C9: every mobile-flagged archetype whose platform does not contain
"iPhone" derives the Android triplet (Qualcomm / Adreno (TM) 640); in the
tablet catalog every iPad entry has platform "MacIntel" with the mobile flag
set and therefore derives exactly that Android triplet, and such entries do
exist - Apple iPad identities are paired with an Android GPU renderer. -/
theorem ipad_tablets_get_android_webgl :
    (∀ (p : String) (mem : Nat), strContains p "iPhone" = false →
      generate_webgl_fingerprint p true mem = android_fp) ∧
    (∀ d ∈ TABLET_PROFILES, strContains d.user_agent "iPad" = true →
      d.platform = "MacIntel" ∧ d.is_mobile = true ∧
        webgl_of d = android_fp) ∧
    (∃ d ∈ TABLET_PROFILES, strContains d.user_agent "iPad" = true) := by
  refine ⟨?_, ?_, ?_⟩
  · intro p mem h
    simp [generate_webgl_fingerprint, h]
  · decide
  · decide

/-- Witness for C9 at the iPad platform string "MacIntel". -/
theorem ipad_tablets_get_android_webgl_witness :
    strContains "MacIntel" "iPhone" = false ∧
    generate_webgl_fingerprint "MacIntel" true 16 = android_fp :=
  ⟨by decide, ipad_tablets_get_android_webgl.1 "MacIntel" 16 (by decide)⟩

/-- The body of run_once reports browser-acquired on every path after a
successful launch, and context-acquired exactly when new_context succeeded. -/
theorem run_once_after_launch_flags (env : RunEnv) (url : String) :
    (run_once_after_launch env url).2.1 = true ∧
    (run_once_after_launch env url).2.2
      = (match env.new_context with
         | Except.ok _ => true
         | Except.error _ => false) := by
  unfold run_once_after_launch
  cases env.new_context <;> cases env.add_init_script1 <;>
    cases env.add_init_script2 <;> cases env.new_page <;>
    cases env.page_evaluate <;>
    cases run_steps env.step click_steps [⟨"Open URL", "OK", url⟩] <;> simp

/-- The acquisition facts the body reports coincide with the acquisition
predicates computed from the environment. -/
theorem run_once_body_flags (env : RunEnv) (url : String) :
    (run_once_body env url).2.1 = browser_acquired env ∧
    (run_once_body env url).2.2 = context_acquired env := by
  simp only [run_once_body, context_acquired, browser_acquired]
  cases env.launch1 with
  | ok u => simpa using run_once_after_launch_flags env url
  | error e1 =>
    cases env.launch2 with
    | ok u => simpa using run_once_after_launch_flags env url
    | error e2 => simp

/-- C4: on every exit path of run_once - success, a step raising
mid-sequence, or a launch failure - the finally block invokes
context.close() exactly once iff the context was acquired (never twice,
never on an unacquired resource) and browser.close() exactly once iff the
browser was acquired, and the outcomes of those teardown calls are swallowed:
replacing them by any outcomes whatsoever leaves the run's result (the
returned step list or the original exception) unchanged. -/
theorem run_once_teardown_exactly_once (env : RunEnv) (url : String) :
    (run_once env url).context_close_calls
        = (if context_acquired env then 1 else 0) ∧
    (run_once env url).browser_close_calls
        = (if browser_acquired env then 1 else 0) ∧
    ∀ c b, (run_once
        { env with context_close := c, browser_close := b } url).result
      = (run_once env url).result := by
  obtain ⟨hb, hc⟩ := run_once_body_flags env url
  refine ⟨?_, ?_, ?_⟩
  · show (if (run_once_body env url).2.2 then 1 else 0) = _
    rw [hc]
  · show (if (run_once_body env url).2.1 then 1 else 0) = _
    rw [hb]
  · intro c b
    rfl

/-- C5: a worker loop on which every run_once call raises keeps iterating
(each iteration is a total function: the except branch absorbs every
failure, so none escapes the loop boundary), and after K consecutive failed
iterations from a fresh state the worker records runs = K, failures = K,
zero successes, and the error-restarting lifecycle label (spelled
"error/restarting" in the source). -/
theorem runner_task_never_stops (env : WorkerEnv) (K : Nat)
    (hfail : ∀ i, ∃ e, env.run_outcome i = Except.error e) (hK : 0 < K) :
    (runner_task_iter env (fresh_state 1 0) K).runs = K ∧
    (runner_task_iter env (fresh_state 1 0) K).failures = K ∧
    (runner_task_iter env (fresh_state 1 0) K).successes = 0 ∧
    (runner_task_iter env (fresh_state 1 0) K).status = "error/restarting" := by
  have haux : ∀ s0 : InstanceState, ∀ J : Nat,
      (runner_task_iter env s0 J).runs = s0.runs + J ∧
      (runner_task_iter env s0 J).failures = s0.failures + J ∧
      (runner_task_iter env s0 J).successes = s0.successes := by
    intro s0 J
    induction J with
    | zero => simp [runner_task_iter]
    | succ j ih =>
      obtain ⟨h1, h2, h3⟩ := ih
      obtain ⟨e, he⟩ := hfail j
      simp only [runner_task_iter, runner_task_step, he]
      refine ⟨by omega, by omega, h3⟩
  obtain ⟨h1, h2, h3⟩ := haux (fresh_state 1 0) K
  refine ⟨by simpa [fresh_state] using h1, by simpa [fresh_state] using h2,
    by simpa [fresh_state] using h3, ?_⟩
  cases K with
  | zero => omega
  | succ k =>
    obtain ⟨e, he⟩ := hfail k
    simp [runner_task_iter, runner_task_step, he]

/-- Witness for C5: the spec's example scenario - every run raises, K = 5
iterations - yields runs 5, failures 5, successes 0 and the error-restarting
label. -/
theorem runner_task_never_stops_witness :
    (runner_task_iter worker_env_always_fails (fresh_state 1 0) 5).runs = 5 ∧
    (runner_task_iter worker_env_always_fails
      (fresh_state 1 0) 5).failures = 5 ∧
    (runner_task_iter worker_env_always_fails
      (fresh_state 1 0) 5).successes = 0 ∧
    (runner_task_iter worker_env_always_fails (fresh_state 1 0) 5).status
      = "error/restarting" :=
  runner_task_never_stops worker_env_always_fails 5
    (fun _ => ⟨"Element not found/clickable: div.start_btn", rfl⟩)
    (by decide)

/-- C10: each iteration of the worker loop increments runs by exactly one and
exactly one of successes or failures by exactly one, so after K iterations
from any state runs grew by K and successes + failures grew by K; from the
fresh state (all counters zero) the boundary invariant
runs = successes + failures follows for every K. -/
theorem runner_task_counter_equation (env : WorkerEnv) (s0 : InstanceState)
    (K : Nat) :
    (runner_task_iter env s0 K).runs = s0.runs + K ∧
    (runner_task_iter env s0 K).successes +
        (runner_task_iter env s0 K).failures
      = s0.successes + s0.failures + K := by
  induction K with
  | zero => simp [runner_task_iter]
  | succ k ih =>
    obtain ⟨h1, h2⟩ := ih
    cases ho : env.run_outcome k with
    | ok results =>
      simp only [runner_task_iter, runner_task_step, ho]
      constructor <;> omega
    | error e =>
      simp only [runner_task_iter, runner_task_step, ho]
      constructor <;> omega
